import Mathlib

/-!
Verification of the Workspace Runner (src/running/run.py).

The Python program is shallowly embedded: the filesystem is a finite
association list from absolute path strings to nodes (regular file with
content and metadata, directory, or symbolic link), fallible operations
return `Except PyErr`, and the stateful parts of `Runner.__init__` /
`Runner.initialize` / `Runner.run` / `main` are explicit state-passing
functions over that filesystem.  The nondeterministic inputs of a real
execution (the current working directory, `time.time()` rendered as a
string, the path chosen by `tempfile.mkdtemp`, and the behaviour of the
spawned subprocess) are passed in as parameters.
-/

set_option autoImplicit false

/-- Python exception classes raised (directly or by the standard library)
by the code paths of run.py.  `directoryConflict` is the `ValueError`
raised by `Runner.check_and_create_dir` (the spec calls it
`DirectoryConflict`); `fileNotFound` is `FileNotFoundError` (raised for a
missing artifact -- the spec's `ArtifactNotFound` -- and by `subprocess`
for a missing executable); `valueError` is the `ValueError` raised by
`shlex.split` on unbalanced quoting. -/
inductive PyErr where
  | directoryConflict
  | fileNotFound
  | fileExistsError
  | notADirectoryError
  | isADirectoryError
  | indexError
  | valueError
  deriving DecidableEq, Repr

/-- A filesystem node: a regular file (content plus a metadata tag that
models the timestamps/permissions preserved by `shutil.copy2`), a
directory, or a symbolic link storing its target path. -/
inductive FSNode where
  | file (content : String) (meta : Nat)
  | dir
  | symlink (target : String)
  deriving DecidableEq, Repr

/-- The filesystem: a finite association list from path to node.
Lookup is first-match; `fsInsert` keeps keys unique. -/
abbrev FS := List (String × FSNode)

def fsLookup : FS → String → Option FSNode
  | [], _ => none
  | e :: rest, p => if e.1 == p then some e.2 else fsLookup rest p

def fsInsert (fs : FS) (p : String) (n : FSNode) : FS :=
  (p, n) :: fs.filter (fun e => e.1 != p)

/-- Resolve one level of symbolic link, as `os.path.exists` / `os.path.isdir`
do (chains of links are not modelled; no claim exercises them). -/
def resolveNode (fs : FS) (p : String) : Option FSNode :=
  match fsLookup fs p with
  | some (FSNode.symlink t) => fsLookup fs t
  | o => o

/-- `os.path.exists` (follows symbolic links). -/
def fsExists (fs : FS) (p : String) : Bool :=
  (resolveNode fs p).isSome

/-- `os.path.isdir` (follows symbolic links). -/
def fsIsDir (fs : FS) (p : String) : Bool :=
  match resolveNode fs p with
  | some FSNode.dir => true
  | _ => false

/-- Whether a POSIX path string is absolute (starts with a slash). -/
def isAbs (p : String) : Bool :=
  p.toList.head? == some '/'

/-- Whether a path string ends with a slash. -/
def endsSlash (p : String) : Bool :=
  p.toList.getLast? == some '/'

/-- `os.path.join(a, b)` for a single pair (POSIX rules): an absolute
second component replaces the first; otherwise the components are joined
with a slash unless the first is empty or already ends in one. -/
def pathJoin (a b : String) : String :=
  if isAbs b then b
  else if a == "" || endsSlash a then a ++ b
  else a ++ "/" ++ b

/-- `os.path.abspath` with explicit base directory (the process's current
directory at call time).  Normalisation of `.` and `..` components is not
modelled; every path the claims exercise is already normalised. -/
def osAbspath (base p : String) : String :=
  if isAbs p then p else pathJoin base p

/-- `os.path.basename`: the suffix after the last slash. -/
def basename (p : String) : String :=
  String.mk ((p.toList.reverse.takeWhile (fun c => c != '/')).reverse)

/-- Split a character list at every slash (the semantics of
`"...".split("/")`): `"/a/b"` becomes `["", "a", "b"]`. -/
def splitOnSlash : List Char → List (List Char)
  | [] => [[]]
  | c :: rest =>
      let r := splitOnSlash rest
      if c = '/' then [] :: r
      else
        match r with
        | [] => [[c]]
        | t :: ts => (c :: t) :: ts

/-- Join component character lists with slashes (the inverse of
`splitOnSlash` on slash-free components). -/
def joinSlash : List (List Char) → List Char
  | [] => []
  | [t] => t
  | t :: ts => t ++ '/' :: joinSlash ts

/-- The strict ancestors of a path that `os.makedirs` would have to create
or traverse: the proper prefixes of `p` at each slash, root excluded. -/
def ancestorDirs (p : String) : List String :=
  let parts := (splitOnSlash p.toList).dropLast
  ((List.range parts.length).map
    (fun i => String.mk (joinSlash (parts.take (i + 1))))).filter
    (fun s => s != "")

/-- Every ancestor of `p` that exists is a directory -- the condition under
which `os.makedirs` can succeed. -/
def ancestorsOk (fs : FS) (p : String) : Bool :=
  (ancestorDirs p).all (fun a => !(fsExists fs a) || fsIsDir fs a)

/-- Insert directory nodes at each of the given paths that is absent. -/
def insertDirs (fs : FS) (ps : List String) : FS :=
  ps.foldl (fun f p => if fsExists f p then f else fsInsert f p FSNode.dir) fs

/-- `os.makedirs(p)` (default `exist_ok=False`): creates `p` and any
missing ancestors; `FileExistsError` if `p` exists, `NotADirectoryError`
if an existing ancestor is not a directory. -/
def osMakedirs (fs : FS) (p : String) : Except PyErr FS :=
  if fsExists fs p then Except.error PyErr.fileExistsError
  else if ancestorsOk fs p then
    Except.ok (fsInsert (insertDirs fs (ancestorDirs p)) p FSNode.dir)
  else Except.error PyErr.notADirectoryError

/-- `Runner.check_and_create_dir` (run.py lines 27-32): raise `ValueError`
(the spec's `DirectoryConflict`) when the path exists and is not a
directory, otherwise create it with `os.makedirs` when absent. -/
def checkAndCreateDir (fs : FS) (d : String) : Except PyErr FS :=
  if fsExists fs d then
    if fsIsDir fs d then Except.ok fs
    else Except.error PyErr.directoryConflict
  else osMakedirs fs d

/-- `shutil.copy2(src, dst)`: follows a symlink source, copies a regular
file's content and metadata; raises `IsADirectoryError` when the source is
a directory.  A destination that is an existing directory makes Python
copy *into* that directory; that corner is modelled as an error here (no
claim reaches it), which keeps staging from silently overwriting a
directory node. -/
def shutilCopy2 (fs : FS) (src dst : String) : Except PyErr FS :=
  match resolveNode fs src with
  | some (FSNode.file c m) =>
      if fsIsDir fs dst then Except.error PyErr.isADirectoryError
      else Except.ok (fsInsert fs dst (FSNode.file c m))
  | some FSNode.dir => Except.error PyErr.isADirectoryError
  | _ => Except.error PyErr.fileNotFound

/-- `os.symlink(src, dst)`: creates a symbolic link; `FileExistsError`
when the destination already exists. -/
def osSymlink (fs : FS) (src dst : String) : Except PyErr FS :=
  if (fsLookup fs dst).isSome then Except.error PyErr.fileExistsError
  else Except.ok (fsInsert fs dst (FSNode.symlink src))

/-- The parsed command-line arguments built by `argparse` in `main`
(run.py lines 132-140).  `log_dir` and `artifacts` are `None` when their
flags are absent; `persist` defaults to `True` and is set to `False` by
`--no-persist`. -/
structure Args where
  log_dir : Option String
  artifacts : Option (List String)
  symlink_to_artifacts : Bool
  verbose : Bool
  persist : Bool
  command : List String
  deriving Repr

/-- The `config` dictionary consumed by `Runner`.  `log_dir` keeps Python's
three states apart: `none` models the key being absent from the dict
(`config.get("log_dir", cwd)` then yields `cwd`), `some none` models the
key mapped to `None` (as `main` does when `--log-dir` is not passed), and
`some (some s)` a configured string.  An absent or `None` artifacts entry
is falsy exactly like `[]`, so both collapse to `[]`. -/
structure Config where
  log_dir : Option (Option String) := none
  artifacts : List String := []
  symlink_to_artifacts : Bool := false
  verbose : Bool := false
  persist : Bool := false
  deriving Repr

/-- The config dict literally built in `main` (run.py lines 141-147):
every key is present; `log_dir` and `artifacts` carry `args` values that
may be `None`. -/
def mainConfig (a : Args) : Config :=
  { log_dir := some a.log_dir
    artifacts := a.artifacts.getD []
    symlink_to_artifacts := a.symlink_to_artifacts
    verbose := a.verbose
    persist := a.persist }

/-- Resolution of the log directory (run.py lines 52-58):
`log_dir = self.config.get("log_dir", cwd)`; when that value is `None`
the directory becomes `os.path.abspath(os.path.join(cwd, "work"))`,
otherwise `os.path.join(cwd, log_dir)`. -/
def resolveLogDir (cwd : String) (cfg : Config) : String :=
  match cfg.log_dir with
  | none => pathJoin cwd cwd
  | some none => osAbspath cwd (pathJoin cwd "work")
  | some (some s) => pathJoin cwd s

/-- The log file path (run.py line 62), with `time.time()` rendered as the
string `ts`. -/
def logFilePath (cwd : String) (cfg : Config) (ts : String) : String :=
  pathJoin (resolveLogDir cwd cfg) ("run_log_" ++ ts ++ ".txt")

/-- Python truthiness of `self.dir` (run.py line 67): `None` and the empty
string are falsy. -/
def truthy : Option String → Bool
  | none => false
  | some s => s != ""

/-- Workspace resolution (run.py lines 66-77).  Returns the filesystem,
the workspace directory, and the process's current working directory
afterwards (`os.chdir` happens in the persist and temp branches only).
`tmp` is the fresh path chosen by `tempfile.mkdtemp`, which creates the
directory. -/
def initWorkspace (cwd : String) (dirArg : Option String) (cfg : Config)
    (ts tmp logDir : String) (fs : FS) : Except PyErr (FS × String × String) :=
  if truthy dirArg then
    let d := dirArg.getD ""
    (checkAndCreateDir fs d).map (fun fs2 => (fs2, d, cwd))
  else if cfg.persist then
    let d := pathJoin logDir ("run_workspace_" ++ ts)
    (checkAndCreateDir fs d).map (fun fs2 => (fs2, d, d))
  else
    Except.ok (fsInsert fs tmp FSNode.dir, tmp, tmp)

/-- Staging one artifact (run.py lines 81-92).  `base` is the process's
current directory at staging time (the `os.path.abspath` base -- irrelevant
whenever `cwd` is absolute, which `os.getcwd()` guarantees); `cwd` is the
original working directory captured at run.py line 52. -/
def stageArtifact (cwd base ws : String) (symlink : Bool) (fs : FS)
    (artifact : String) : Except PyErr FS :=
  let source_path := osAbspath base (pathJoin cwd artifact)
  let dest_path := pathJoin ws (basename artifact)
  if fsExists fs source_path then
    if symlink then osSymlink fs source_path dest_path
    else shutilCopy2 fs source_path dest_path
  else Except.error PyErr.fileNotFound

/-- The staging loop over `config["artifacts"]`, in order, no
deduplication. -/
def stageAll (cwd base ws : String) (symlink : Bool) (fs : FS) :
    List String → Except PyErr FS
  | [] => Except.ok fs
  | a :: rest =>
      (stageArtifact cwd base ws symlink fs a).bind
        (fun fs2 => stageAll cwd base ws symlink fs2 rest)

/-- The state of a successfully constructed `Runner`: the filesystem after
initialization, the workspace directory `self.dir`, `self.log_filename`,
the process's current working directory, and the log lines written so far.
The log file itself lives outside the workspace walks and is kept apart
from the `FS` value. -/
structure InitResult where
  fs : FS
  dir : String
  logFilename : String
  cwdAfter : String
  logLines : List String
  deriving Repr

/-- `Runner.initialize` (run.py lines 50-95), which `Runner.__init__` runs
synchronously: resolve and create the log directory, fix the log file
path, resolve the workspace, stage the artifacts, and write the
"Workspace initiated" log line. -/
def initRunner (cwd : String) (dirArg : Option String) (cfg : Config)
    (ts tmp : String) (fs : FS) : Except PyErr InitResult :=
  let logDir := resolveLogDir cwd cfg
  (checkAndCreateDir fs logDir).bind (fun fs1 =>
    let logF := pathJoin logDir ("run_log_" ++ ts ++ ".txt")
    (initWorkspace cwd dirArg cfg ts tmp logDir fs1).bind (fun x =>
      (stageAll cwd x.2.2 x.2.1 cfg.symlink_to_artifacts x.1 cfg.artifacts).map
        (fun fs3 =>
          { fs := fs3
            dir := x.2.1
            logFilename := logF
            cwdAfter := x.2.2
            logLines := ["Workspace initiated at " ++ x.2.1] })))

/-- Whether path `p` lies strictly under directory `d` (it extends
`d ++ "/"`), as the paths produced by `os.path.join(root, name)` in the
walk comprehensions do. -/
def underDir (d p : String) : Bool :=
  (d ++ "/").toList.isPrefixOf p.toList

/-- Node classification used by the walk: regular files and symbolic
links land in the file list.  (`os.walk` with `followlinks=False` lists a
symlink to a directory among the directories without descending into it;
no claim distinguishes that corner.) -/
def nodeInFiles : FSNode → Bool
  | FSNode.file _ _ => true
  | FSNode.symlink _ => true
  | FSNode.dir => false

def nodeInDirs : FSNode → Bool
  | FSNode.dir => true
  | _ => false

/-- The set comprehension of run.py line 101/118: every file path found by
a recursive walk of `d`. -/
def walkFiles (fs : FS) (d : String) : Finset String :=
  ((fs.filter (fun e => underDir d e.1 && nodeInFiles e.2)).map Prod.fst).toFinset

/-- The set comprehension of run.py line 102/119: every directory path
found by a recursive walk of `d`. -/
def walkDirs (fs : FS) (d : String) : Finset String :=
  ((fs.filter (fun e => underDir d e.1 && nodeInDirs e.2)).map Prod.fst).toFinset

/-- The changed-set computation of run.py lines 122-123: plain set
differences of the after and before snapshots. -/
def runChangedSets (d : String) (fsBefore fsAfter : FS) :
    Finset String × Finset String :=
  (walkFiles fsAfter d \ walkFiles fsBefore d,
   walkDirs fsAfter d \ walkDirs fsBefore d)

/-- Rendering of `list(changed_files)` in the log line.  Python's set
iteration order is unspecified; it is modelled as sorted order. -/
def renderPaths (s : Finset String) : String :=
  toString (s.sort (fun a b => a ≤ b))

/-- The three log lines the `finally` block always writes
(run.py lines 125-128). -/
def sideEffectLines (d : String) (fsB fsA : FS) : List String :=
  let ch := runChangedSets d fsB fsA
  ["Command side effects:",
   "\tChanged or created files:\n\t\t" ++ renderPaths ch.1,
   "\tChanged or created directories:\n\t\t" ++ renderPaths ch.2]

/-- The behaviour of the spawned subprocess, an input of the model:
whether the executable launches at all (`False` models the
`FileNotFoundError` of a missing executable), its exit code, the text it
writes to its redirected standard output, its captured standard error,
and its effect on the workspace filesystem. -/
structure CmdSpec where
  launches : Bool
  exitCode : Int
  stdout : List String
  stderr : String
  effect : FS → FS

/-- The observable outcome of `Runner.run`: the lines appended to the log
file, the lines echoed to the console (verbose mode), the filesystem
afterwards, and the exception propagating to the caller, if any. -/
structure RunOutcome where
  log : List String
  console : List String
  fs : FS
  exc : Option PyErr

/-- State of the `shlex` POSIX lexer: outside quotes, inside single
quotes, inside double quotes, and after an escape character in the two
states where one is recognised. -/
inductive ShMode where
  | norm | single | double | escN | escD
  deriving DecidableEq

def flushTok : Option (List Char) → List (List Char)
  | none => []
  | some t => [t]

def curTok : Option (List Char) → List Char
  | none => []
  | some t => t

/-- The single-quote character. -/
def squoteChar : Char := Char.ofNat 39

def isShWs (c : Char) : Bool :=
  c == ' ' || c == '\t' || c == '\r' || c == '\n'

/-- The core of `shlex.split` in POSIX mode with `whitespace_split=True`:
whitespace separates tokens; single quotes are literal until the closing
quote; inside double quotes a backslash escapes only `"` and `\` and is
otherwise kept; outside quotes a backslash makes the next character
literal.  An unterminated quote or trailing escape raises `ValueError`. -/
def shlexRun : List Char → ShMode → Option (List Char) → List (List Char) →
    Except PyErr (List (List Char))
  | [], ShMode.norm, cur, acc => Except.ok (acc ++ flushTok cur)
  | [], _, _, _ => Except.error PyErr.valueError
  | c :: rest, ShMode.norm, cur, acc =>
      if isShWs c then shlexRun rest ShMode.norm none (acc ++ flushTok cur)
      else if c == squoteChar then shlexRun rest ShMode.single (some (curTok cur)) acc
      else if c == '"' then shlexRun rest ShMode.double (some (curTok cur)) acc
      else if c == '\\' then shlexRun rest ShMode.escN cur acc
      else shlexRun rest ShMode.norm (some (curTok cur ++ [c])) acc
  | c :: rest, ShMode.single, cur, acc =>
      if c == squoteChar then shlexRun rest ShMode.norm cur acc
      else shlexRun rest ShMode.single (some (curTok cur ++ [c])) acc
  | c :: rest, ShMode.double, cur, acc =>
      if c == '"' then shlexRun rest ShMode.norm cur acc
      else if c == '\\' then shlexRun rest ShMode.escD cur acc
      else shlexRun rest ShMode.double (some (curTok cur ++ [c])) acc
  | c :: rest, ShMode.escN, cur, acc =>
      shlexRun rest ShMode.norm (some (curTok cur ++ [c])) acc
  | c :: rest, ShMode.escD, cur, acc =>
      if c == '"' || c == '\\' then
        shlexRun rest ShMode.double (some (curTok cur ++ [c])) acc
      else shlexRun rest ShMode.double (some (curTok cur ++ ['\\', c])) acc

/-- `shlex.split` (run.py line 104). -/
def shlexSplit (s : String) : Except PyErr (List String) :=
  (shlexRun s.toList ShMode.norm none []).map (fun ts => ts.map String.mk)

/-- `Runner.run` (run.py lines 97-128).  The before snapshot is taken on
entry; a `ValueError` from `shlex.split` propagates before the `try`
block; otherwise the subprocess behaviour `cmd` determines the branch:
success appends the redirected stdout and the success line, a non-zero
exit is caught and logged with the captured stderr, a launch failure
propagates -- and in each of the last two cases the `finally` block still
appends the full side-effects section. -/
def runnerRun (verbose : Bool) (d : String) (fs : FS) (command : String)
    (cmd : CmdSpec) : RunOutcome :=
  match shlexSplit command with
  | Except.error e => { log := [], console := [], fs := fs, exc := some e }
  | Except.ok _ =>
      if cmd.launches then
        let fsAfter := cmd.effect fs
        let side := sideEffectLines d fs fsAfter
        if cmd.exitCode = 0 then
          { log := cmd.stdout ++ ["Command executed successfully."] ++ side
            console := if verbose then side else []
            fs := fsAfter
            exc := none }
        else
          { log := cmd.stdout ++ ["Command terminated with error:", cmd.stderr] ++ side
            console := if verbose then ["Command terminated with error:", cmd.stderr] ++ side else []
            fs := fsAfter
            exc := none }
      else
        { log := sideEffectLines d fs fs
          console := if verbose then sideEffectLines d fs fs else []
          fs := fs
          exc := some PyErr.fileNotFound }

/-- run.py lines 149-150: `args.command[0]` is indexed without a guard --
an empty remainder raises `IndexError` -- a leading `"--"` is stripped, and
the tokens are rejoined with single spaces. -/
def mainCommandString (command : List String) : Except PyErr String :=
  match command with
  | [] => Except.error PyErr.indexError
  | c :: rest =>
      Except.ok (String.intercalate " " (if c == "--" then rest else c :: rest))

/-- `Runner(command, config=config)` followed by `runner.run()`
(run.py lines 152-153). -/
def runnerMain (cwd : String) (dirArg : Option String) (cfg : Config)
    (ts tmp command : String) (fs : FS) (cmd : CmdSpec) :
    Except PyErr RunOutcome :=
  (initRunner cwd dirArg cfg ts tmp fs).map
    (fun r => runnerRun cfg.verbose r.dir r.fs command cmd)

/-- The whole of `main` after argument parsing (run.py lines 141-153). -/
def mainEntry (a : Args) (cwd ts tmp : String) (fs : FS) (cmd : CmdSpec) :
    Except PyErr RunOutcome :=
  (mainCommandString a.command).bind
    (fun command => runnerMain cwd none (mainConfig a) ts tmp command fs cmd)

theorem fsLookup_filter_ne (fs : FS) (p q : String) (h : q ≠ p) :
    fsLookup (fs.filter (fun e => e.1 != p)) q = fsLookup fs q := by
  induction fs with
  | nil => rfl
  | cons e rest ih =>
      by_cases hp : e.1 = p
      · have h2 : ¬ p = q := fun hh => h hh.symm
        simp [List.filter_cons, hp, fsLookup, h2, ih]
      · simp [List.filter_cons, bne_iff_ne.mpr hp, fsLookup, ih]

theorem fsLookup_fsInsert (fs : FS) (p q : String) (n : FSNode) :
    fsLookup (fsInsert fs p n) q = if q = p then some n else fsLookup fs q := by
  unfold fsInsert
  by_cases h : q = p
  · simp [fsLookup, h]
  · have h1 : (p == q) = false := beq_eq_false_iff_ne.mpr (fun hh => h hh.symm)
    simp [fsLookup, h1, h, fsLookup_filter_ne fs p q h]

theorem mem_of_fsLookup (fs : FS) (p : String) (v : FSNode)
    (h : fsLookup fs p = some v) : (p, v) ∈ fs := by
  induction fs with
  | nil => simp [fsLookup] at h
  | cons e rest ih =>
      by_cases he : e.1 = p
      · simp only [fsLookup, beq_iff_eq, he, if_true] at h
        cases h
        have he2 : e = (p, e.2) := by
          calc e = (e.1, e.2) := rfl
            _ = (p, e.2) := by rw [he]
        rw [← he2]
        exact List.mem_cons_self e rest
      · simp only [fsLookup, beq_iff_eq, he, if_false] at h
        exact List.mem_cons_of_mem e (ih h)

theorem fsIsDir_resolve (fs : FS) (d : String) :
    fsIsDir fs d = true ↔
      (fsLookup fs d = some FSNode.dir ∨
       ∃ t, fsLookup fs d = some (FSNode.symlink t) ∧
         fsLookup fs t = some FSNode.dir) := by
  unfold fsIsDir resolveNode
  cases h : fsLookup fs d with
  | none => simp [h]
  | some v => cases v with
    | file c m => simp [h]
    | dir => simp [h]
    | symlink t =>
        simp only [h]
        cases h2 : fsLookup fs t with
        | none => simp [h2]
        | some w => cases w <;> simp [h2]

theorem fsIsDir_false_of_lookup_none {fs : FS} {p : String}
    (h : fsLookup fs p = none) : fsIsDir fs p = false := by
  simp [fsIsDir, resolveNode, h]

theorem fsExists_of_fsIsDir {fs : FS} {d : String} (h : fsIsDir fs d = true) :
    fsExists fs d = true := by
  unfold fsIsDir at h
  unfold fsExists
  cases hr : resolveNode fs d with
  | none => rw [hr] at h; simp at h
  | some v => simp [hr]

theorem fsIsDir_fsInsert_preserve {fs : FS} {p d : String} {n : FSNode}
    (h : fsIsDir fs d = true) (h2 : fsIsDir fs p = false) :
    fsIsDir (fsInsert fs p n) d = true := by
  rcases (fsIsDir_resolve fs d).mp h with hdir | ⟨t, hsym, htdir⟩
  · have hdp : d ≠ p := by
      intro hh
      rw [hh] at hdir
      rw [(fsIsDir_resolve fs p).mpr (Or.inl hdir)] at h2
      exact Bool.noConfusion h2
    exact (fsIsDir_resolve _ d).mpr
      (Or.inl (by rw [fsLookup_fsInsert, if_neg hdp]; exact hdir))
  · have hdp : d ≠ p := by
      intro hh
      rw [hh] at hsym
      rw [(fsIsDir_resolve fs p).mpr (Or.inr ⟨t, hsym, htdir⟩)] at h2
      exact Bool.noConfusion h2
    have htp : t ≠ p := by
      intro hh
      rw [hh] at htdir
      rw [(fsIsDir_resolve fs p).mpr (Or.inl htdir)] at h2
      exact Bool.noConfusion h2
    refine (fsIsDir_resolve _ d).mpr (Or.inr ⟨t, ?_, ?_⟩)
    · rw [fsLookup_fsInsert, if_neg hdp]; exact hsym
    · rw [fsLookup_fsInsert, if_neg htp]; exact htdir

theorem osMakedirs_ok_isDir {fs fs2 : FS} {d : String}
    (h : osMakedirs fs d = Except.ok fs2) : fsIsDir fs2 d = true := by
  unfold osMakedirs at h
  by_cases he : fsExists fs d = true
  · rw [if_pos he] at h
    cases h
  · rw [if_neg he] at h
    by_cases ha : ancestorsOk fs d = true
    · rw [if_pos ha] at h
      cases h
      exact (fsIsDir_resolve _ d).mpr
        (Or.inl (by rw [fsLookup_fsInsert, if_pos rfl]))
    · rw [if_neg ha] at h
      cases h

theorem checkAndCreateDir_ok_isDir {fs fs2 : FS} {d : String}
    (h : checkAndCreateDir fs d = Except.ok fs2) : fsIsDir fs2 d = true := by
  unfold checkAndCreateDir at h
  by_cases he : fsExists fs d = true
  · rw [if_pos he] at h
    by_cases hd : fsIsDir fs d = true
    · rw [if_pos hd] at h
      cases h
      exact hd
    · rw [if_neg hd] at h
      cases h
  · rw [if_neg he] at h
    exact osMakedirs_ok_isDir h

theorem stageArtifact_preserves_isDir {cwd base ws a d : String}
    {symlink : Bool} {fs fs2 : FS}
    (h : stageArtifact cwd base ws symlink fs a = Except.ok fs2)
    (hd : fsIsDir fs d = true) : fsIsDir fs2 d = true := by
  unfold stageArtifact at h
  by_cases hex : fsExists fs (osAbspath base (pathJoin cwd a)) = true
  · rw [if_pos hex] at h
    by_cases hsym : symlink = true
    · rw [if_pos hsym] at h
      unfold osSymlink at h
      by_cases hdst : (fsLookup fs (pathJoin ws (basename a))).isSome = true
      · rw [if_pos hdst] at h
        cases h
      · rw [if_neg hdst] at h
        cases h
        exact fsIsDir_fsInsert_preserve hd
          (fsIsDir_false_of_lookup_none (Option.not_isSome_iff_eq_none.mp hdst))
    · rw [if_neg hsym] at h
      unfold shutilCopy2 at h
      cases hres : resolveNode fs (osAbspath base (pathJoin cwd a)) with
      | none => rw [hres] at h; cases h
      | some v =>
          cases v with
          | file c m =>
              rw [hres] at h
              dsimp only at h
              by_cases hdst : fsIsDir fs (pathJoin ws (basename a)) = true
              · rw [if_pos hdst] at h
                cases h
              · rw [if_neg hdst] at h
                cases h
                exact fsIsDir_fsInsert_preserve hd (Bool.not_eq_true _ ▸ hdst)
          | dir => rw [hres] at h; cases h
          | symlink t => rw [hres] at h; cases h
  · rw [if_neg hex] at h
    cases h

theorem stageAll_preserves_isDir {cwd base ws d : String} {symlink : Bool} :
    ∀ (arts : List String) {fs fs2 : FS},
      stageAll cwd base ws symlink fs arts = Except.ok fs2 →
      fsIsDir fs d = true → fsIsDir fs2 d = true := by
  intro arts
  induction arts with
  | nil =>
      intro fs fs2 h hd
      unfold stageAll at h
      cases h
      exact hd
  | cons a rest ih =>
      intro fs fs2 h hd
      unfold stageAll at h
      cases h1 : stageArtifact cwd base ws symlink fs a with
      | error e => rw [h1] at h; cases h
      | ok fsa =>
          rw [h1] at h
          exact ih h (stageArtifact_preserves_isDir h1 hd)

theorem initWorkspace_spec {cwd ts tmp logDir : String} {dirArg : Option String}
    {cfg : Config} {fs fs2 : FS} {w ca : String}
    (h : initWorkspace cwd dirArg cfg ts tmp logDir fs = Except.ok (fs2, w, ca)) :
    (truthy dirArg = true →
      w = dirArg.getD "" ∧ ca = cwd ∧ checkAndCreateDir fs w = Except.ok fs2) ∧
    (truthy dirArg = false → cfg.persist = true →
      w = pathJoin logDir ("run_workspace_" ++ ts) ∧ ca = w ∧
      checkAndCreateDir fs w = Except.ok fs2) ∧
    (truthy dirArg = false → cfg.persist = false →
      w = tmp ∧ ca = tmp ∧ fs2 = fsInsert fs tmp FSNode.dir) := by
  simp only [initWorkspace] at h
  by_cases ht : truthy dirArg = true
  · rw [if_pos ht] at h
    cases hc : checkAndCreateDir fs (dirArg.getD "") with
    | error e => rw [hc] at h; cases h
    | ok fsx =>
        rw [hc] at h
        simp only [Except.map] at h
        cases h
        exact ⟨fun _ => ⟨rfl, rfl, hc⟩,
          fun hf => absurd ht (by rw [hf]; exact Bool.noConfusion),
          fun hf => absurd ht (by rw [hf]; exact Bool.noConfusion)⟩
  · rw [if_neg ht] at h
    by_cases hp : cfg.persist = true
    · rw [if_pos hp] at h
      cases hc : checkAndCreateDir fs (pathJoin logDir ("run_workspace_" ++ ts)) with
      | error e => rw [hc] at h; cases h
      | ok fsx =>
          rw [hc] at h
          simp only [Except.map] at h
          cases h
          exact ⟨fun htt => absurd htt ht,
            fun _ _ => ⟨rfl, rfl, hc⟩,
            fun _ hpf => absurd hp (by rw [hpf]; exact Bool.noConfusion)⟩
    · rw [if_neg hp] at h
      cases h
      exact ⟨fun htt => absurd htt ht,
        fun _ hpt => absurd hpt hp,
        fun _ _ => ⟨rfl, rfl, rfl⟩⟩

theorem initRunner_inv {cwd ts tmp : String} {dirArg : Option String}
    {cfg : Config} {fs : FS} {r : InitResult}
    (h : initRunner cwd dirArg cfg ts tmp fs = Except.ok r) :
    ∃ fs1 fs2 w ca,
      checkAndCreateDir fs (resolveLogDir cwd cfg) = Except.ok fs1 ∧
      initWorkspace cwd dirArg cfg ts tmp (resolveLogDir cwd cfg) fs1 =
        Except.ok (fs2, w, ca) ∧
      stageAll cwd ca w cfg.symlink_to_artifacts fs2 cfg.artifacts =
        Except.ok r.fs ∧
      r.dir = w ∧ r.cwdAfter = ca ∧
      r.logFilename =
        pathJoin (resolveLogDir cwd cfg) ("run_log_" ++ ts ++ ".txt") ∧
      r.logLines = ["Workspace initiated at " ++ w] := by
  simp only [initRunner] at h
  cases hc : checkAndCreateDir fs (resolveLogDir cwd cfg) with
  | error e => rw [hc] at h; cases h
  | ok fs1 =>
      rw [hc] at h
      simp only [Except.bind] at h
      cases hw : initWorkspace cwd dirArg cfg ts tmp (resolveLogDir cwd cfg) fs1 with
      | error e => rw [hw] at h; cases h
      | ok x =>
          rcases x with ⟨fs2, w, ca⟩
          rw [hw] at h
          simp only [Except.bind] at h
          cases hs : stageAll cwd ca w cfg.symlink_to_artifacts fs2 cfg.artifacts with
          | error e => rw [hs] at h; simp only [Except.map] at h; cases h
          | ok fs3 =>
              rw [hs] at h
              simp only [Except.map] at h
              cases h
              exact ⟨fs1, fs2, w, ca, rfl, hw, hs, rfl, rfl, rfl, rfl⟩

theorem mem_walkFiles {fs : FS} {d q : String} :
    q ∈ walkFiles fs d ↔
      ∃ n, (q, n) ∈ fs ∧ underDir d q = true ∧ nodeInFiles n = true := by
  unfold walkFiles
  constructor
  · intro hq
    rw [List.mem_toFinset] at hq
    rcases List.mem_map.mp hq with ⟨e, he, hfst⟩
    rcases e with ⟨a, n⟩
    rcases List.mem_filter.mp he with ⟨hmem, hcond⟩
    rw [Bool.and_eq_true] at hcond
    cases hfst
    exact ⟨n, hmem, hcond.1, hcond.2⟩
  · rintro ⟨n, hmem, h1, h2⟩
    rw [List.mem_toFinset]
    refine List.mem_map.mpr ⟨(q, n), List.mem_filter.mpr ⟨hmem, ?_⟩, rfl⟩
    rw [Bool.and_eq_true]
    exact ⟨h1, h2⟩

theorem mem_walkDirs {fs : FS} {d q : String} :
    q ∈ walkDirs fs d ↔
      ∃ n, (q, n) ∈ fs ∧ underDir d q = true ∧ nodeInDirs n = true := by
  unfold walkDirs
  constructor
  · intro hq
    rw [List.mem_toFinset] at hq
    rcases List.mem_map.mp hq with ⟨e, he, hfst⟩
    rcases e with ⟨a, n⟩
    rcases List.mem_filter.mp he with ⟨hmem, hcond⟩
    rw [Bool.and_eq_true] at hcond
    cases hfst
    exact ⟨n, hmem, hcond.1, hcond.2⟩
  · rintro ⟨n, hmem, h1, h2⟩
    rw [List.mem_toFinset]
    refine List.mem_map.mpr ⟨(q, n), List.mem_filter.mpr ⟨hmem, ?_⟩, rfl⟩
    rw [Bool.and_eq_true]
    exact ⟨h1, h2⟩

/-- C3: the reported changed sets are exactly the set differences
`after − before` of the two workspace walks: a path newly present in the
after snapshot is reported exactly once (the sets carry no duplicates); a
path absent from the after snapshot -- a deletion -- is reported in neither
set; and an in-place content/metadata mutation of an existing file leaves
both changed sets empty, because the walks see only paths. -/
theorem c3_changed_sets_pure_addition :
    (∀ (d : String) (fsB fsA : FS) (f : String),
        f ∈ walkFiles fsA d → f ∉ walkFiles fsB d →
        f ∈ (runChangedSets d fsB fsA).1 ∧
          Multiset.count f (runChangedSets d fsB fsA).1.val = 1) ∧
    (∀ (d : String) (fsB fsA : FS) (f : String),
        f ∉ walkFiles fsA d → f ∉ walkDirs fsA d →
        f ∉ (runChangedSets d fsB fsA).1 ∧ f ∉ (runChangedSets d fsB fsA).2) ∧
    (∀ (d p c c2 : String) (m m2 : Nat) (fs : FS),
        fsLookup fs p = some (FSNode.file c m) →
        runChangedSets d fs (fsInsert fs p (FSNode.file c2 m2)) = (∅, ∅)) := by
  refine ⟨?_, ?_, ?_⟩
  · intro d fsB fsA f hA hB
    have hmem : f ∈ walkFiles fsA d \ walkFiles fsB d :=
      Finset.mem_sdiff.mpr ⟨hA, hB⟩
    exact ⟨hmem,
      Multiset.count_eq_one_of_mem (walkFiles fsA d \ walkFiles fsB d).nodup hmem⟩
  · intro d fsB fsA f hF hD
    constructor
    · intro hmem
      exact hF (Finset.mem_sdiff.mp hmem).1
    · intro hmem
      exact hD (Finset.mem_sdiff.mp hmem).1
  · intro d p c c2 m m2 fs hlook
    have hsubF : walkFiles (fsInsert fs p (FSNode.file c2 m2)) d ⊆ walkFiles fs d := by
      intro q hq
      rcases mem_walkFiles.mp hq with ⟨n, hmem, h1, h2⟩
      rcases List.mem_cons.mp hmem with hhead | htail
      · have hq1 : q = p := congrArg Prod.fst hhead
        subst hq1
        exact mem_walkFiles.mpr ⟨FSNode.file c m, mem_of_fsLookup fs q _ hlook, h1, rfl⟩
      · exact mem_walkFiles.mpr ⟨n, List.mem_of_mem_filter htail, h1, h2⟩
    have hsubD : walkDirs (fsInsert fs p (FSNode.file c2 m2)) d ⊆ walkDirs fs d := by
      intro q hq
      rcases mem_walkDirs.mp hq with ⟨n, hmem, h1, h2⟩
      rcases List.mem_cons.mp hmem with hhead | htail
      · have hn : n = FSNode.file c2 m2 := congrArg Prod.snd hhead
        rw [hn] at h2
        cases h2
      · exact mem_walkDirs.mpr ⟨n, List.mem_of_mem_filter htail, h1, h2⟩
    unfold runChangedSets
    rw [Prod.mk.injEq]
    exact ⟨Finset.sdiff_eq_empty_iff_subset.mpr hsubF,
      Finset.sdiff_eq_empty_iff_subset.mpr hsubD⟩

/-- Witness for C3: a created file is reported once; a deleted file is in
neither set; a content-and-metadata mutation yields empty changed sets. -/
theorem c3_changed_sets_pure_addition_witness :
    ("/w/new" ∈ (runChangedSets "/w" [("/w/old", FSNode.file "" 0)]
        [("/w/new", FSNode.file "" 0)]).1 ∧
      Multiset.count "/w/new" (runChangedSets "/w" [("/w/old", FSNode.file "" 0)]
        [("/w/new", FSNode.file "" 0)]).1.val = 1) ∧
    ("/w/old" ∉ (runChangedSets "/w" [("/w/old", FSNode.file "" 0)] []).1 ∧
      "/w/old" ∉ (runChangedSets "/w" [("/w/old", FSNode.file "" 0)] []).2) ∧
    runChangedSets "/w" [("/w/f", FSNode.file "a" 0)]
      (fsInsert [("/w/f", FSNode.file "a" 0)] "/w/f" (FSNode.file "b" 1)) = (∅, ∅) :=
  ⟨c3_changed_sets_pure_addition.1 "/w" [("/w/old", FSNode.file "" 0)]
      [("/w/new", FSNode.file "" 0)] "/w/new" (by decide) (by decide),
   c3_changed_sets_pure_addition.2.1 "/w" [("/w/old", FSNode.file "" 0)] []
      "/w/old" (by decide) (by decide),
   c3_changed_sets_pure_addition.2.2 "/w" "/w/f" "a" "b" 0 1
      [("/w/f", FSNode.file "a" 0)] (by decide)⟩

/-- C4: when the command starts and exits non-zero, `run()` catches the
`CalledProcessError`: no exception reaches the caller, the log receives
the redirected stdout, then the "Command terminated with error:" line and
the captured stderr, and the `finally` block still appends the complete
"Command side effects:" section computed from the after-snapshot.  `main`
does nothing after `runner.run()`, so the CLI completes normally without
propagating the child's exit status. -/
theorem c4_nonzero_exit_recovered (verbose : Bool) (d : String) (fs : FS)
    (command : String) (cmd : CmdSpec) (argv : List String)
    (hsplit : shlexSplit command = Except.ok argv)
    (hlaunch : cmd.launches = true) (hexit : cmd.exitCode ≠ 0) :
    (runnerRun verbose d fs command cmd).exc = none ∧
    (runnerRun verbose d fs command cmd).log =
      cmd.stdout ++ ["Command terminated with error:", cmd.stderr] ++
        sideEffectLines d fs (cmd.effect fs) := by
  unfold runnerRun
  rw [hsplit]
  simp [hlaunch, hexit]

/-- Witness for C4: a command that launches, exits with code 1 and writes
"boom" to stderr is recovered and fully logged. -/
theorem c4_nonzero_exit_recovered_witness :
    (runnerRun false "/w" [] "x" ⟨true, 1, ["out"], "boom", id⟩).exc = none ∧
    (runnerRun false "/w" [] "x" ⟨true, 1, ["out"], "boom", id⟩).log =
      ["out"] ++ ["Command terminated with error:", "boom"] ++
        sideEffectLines "/w" [] [] :=
  c4_nonzero_exit_recovered false "/w" [] "x" ⟨true, 1, ["out"], "boom", id⟩
    ["x"] rfl rfl (by decide)

/-- C10: when the command starts and exits zero, the execution step
contributes exactly the redirected stdout and the
"Command executed successfully." line to the log (followed by the
side-effects section the `finally` block always writes), and the captured
stderr is discarded: the whole observable outcome -- log, console echo,
filesystem, exception -- is unchanged under any substitution of the
child's stderr text. -/
theorem c10_stderr_discarded_on_success (verbose : Bool) (d : String) (fs : FS)
    (command : String) (cmd : CmdSpec) (argv : List String)
    (hsplit : shlexSplit command = Except.ok argv)
    (hlaunch : cmd.launches = true) (hexit : cmd.exitCode = 0) :
    (runnerRun verbose d fs command cmd).log =
      cmd.stdout ++ ["Command executed successfully."] ++
        sideEffectLines d fs (cmd.effect fs) ∧
    ∀ s1 s2 : String,
      runnerRun verbose d fs command { cmd with stderr := s1 } =
        runnerRun verbose d fs command { cmd with stderr := s2 } := by
  constructor
  · unfold runnerRun
    rw [hsplit]
    simp [hlaunch, hexit]
  · intro s1 s2
    unfold runnerRun
    rw [hsplit]
    simp [hlaunch, hexit]

/-- Witness for C10: on zero exit the log is stdout plus the success line
plus the side-effects section, and two runs differing only in stderr are
identical. -/
theorem c10_stderr_discarded_on_success_witness :
    (runnerRun false "/w" [] "x" ⟨true, 0, ["hello"], "ignored", id⟩).log =
      ["hello"] ++ ["Command executed successfully."] ++
        sideEffectLines "/w" [] [] ∧
    runnerRun false "/w" [] "x" ⟨true, 0, ["hello"], "A", id⟩ =
      runnerRun false "/w" [] "x" ⟨true, 0, ["hello"], "B", id⟩ := by
  have h := c10_stderr_discarded_on_success false "/w" [] "x"
    ⟨true, 0, ["hello"], "ignored", id⟩ ["x"] rfl rfl rfl
  exact ⟨h.1, h.2 "A" "B"⟩

/-- C9: invoked with zero COMMAND tokens, `main` evaluates
`args.command[0]` on an empty list before constructing the `Runner`, so
the program terminates with an unhandled `IndexError` -- no usage error,
no graceful message, and no runner is ever created. -/
theorem c9_empty_command_index_error (a : Args) (cwd ts tmp : String)
    (fs : FS) (cmd : CmdSpec) (h : a.command = []) :
    mainEntry a cwd ts tmp fs cmd = Except.error PyErr.indexError := by
  unfold mainEntry mainCommandString
  rw [h]
  rfl

/-- Witness for C9 at a concrete argument record with an empty command
remainder. -/
theorem c9_empty_command_index_error_witness :
    mainEntry ⟨none, none, false, false, true, []⟩ "/c" "1.0" "/t" []
      ⟨true, 0, [], "", id⟩ = Except.error PyErr.indexError :=
  c9_empty_command_index_error ⟨none, none, false, false, true, []⟩ "/c" "1.0"
    "/t" [] ⟨true, 0, [], "", id⟩ rfl

/-- C8: the CLI rejoins the remaining tokens with single spaces into one
command string, which `run()` re-splits with `shlex`; the round trip is
not the identity -- for the argument vector `["a b"]` (one argument
containing a space) the re-split token list is `["a", "b"]`, not the
original vector. -/
theorem c8_join_then_split_lossy :
    (∀ argv : List String, argv ≠ [] → argv.head? ≠ some "--" →
        mainCommandString argv = Except.ok (String.intercalate " " argv)) ∧
    (∃ argv : List String,
        mainCommandString argv = Except.ok (String.intercalate " " argv) ∧
        shlexSplit (String.intercalate " " argv) ≠ Except.ok argv) := by
  constructor
  · intro argv h1 h2
    cases argv with
    | nil => exact absurd rfl h1
    | cons c rest =>
        have hb : (c == "--") = false := by
          refine beq_eq_false_iff_ne.mpr ?_
          intro hh
          exact h2 (by rw [List.head?_cons, hh])
        simp [mainCommandString, hb]
  · refine ⟨["a b"], rfl, ?_⟩
    have he : shlexSplit (String.intercalate " " ["a b"]) =
        Except.ok ["a", "b"] := by rfl
    rw [he]
    intro hcontra
    exact absurd (Except.ok.inj hcontra) (by decide)

/-- Witness for C8: the CLI join at a concrete two-token vector. -/
theorem c8_join_then_split_lossy_witness :
    mainCommandString ["echo", "hi"] =
      Except.ok (String.intercalate " " ["echo", "hi"]) :=
  c8_join_then_split_lossy.1 ["echo", "hi"] (by decide) (by decide)

/-- Counterexample to C2 as stated: the artifact `/c/art` exists and is a
directory, yet staging it with `symlink_to_artifacts=false` does not
produce a copy at `<workspace>/basename(A)` -- `shutil.copy2` cannot copy a
directory and raises `IsADirectoryError`. -/
theorem c2_counterexample :
    fsExists [("/c/art", FSNode.dir), ("/w", FSNode.dir)]
      (osAbspath "/c" (pathJoin "/c" "art")) = true ∧
    stageArtifact "/c" "/c" "/w" false
      [("/c/art", FSNode.dir), ("/w", FSNode.dir)] "art" =
      Except.error PyErr.isADirectoryError :=
  ⟨by decide, rfl⟩

/-- C2 amended: for an existing artifact that is a regular *file*,
copy-staging produces a file at `<workspace>/basename(A)` with identical
content and metadata (destination not an existing directory); for any
existing artifact -- file or directory -- symlink-staging produces a
symbolic link at the destination whose target is the resolved source path
(destination not already present); but copy-staging a *directory*
artifact fails with `IsADirectoryError` instead of copying. -/
theorem c2_staging_amended :
    (∀ (cwd base ws a : String) (fs : FS) (c : String) (m : Nat),
        resolveNode fs (osAbspath base (pathJoin cwd a)) =
            some (FSNode.file c m) →
        fsIsDir fs (pathJoin ws (basename a)) = false →
        stageArtifact cwd base ws false fs a =
          Except.ok (fsInsert fs (pathJoin ws (basename a)) (FSNode.file c m))) ∧
    (∀ (cwd base ws a : String) (fs : FS),
        fsExists fs (osAbspath base (pathJoin cwd a)) = true →
        fsLookup fs (pathJoin ws (basename a)) = none →
        stageArtifact cwd base ws true fs a =
          Except.ok (fsInsert fs (pathJoin ws (basename a))
            (FSNode.symlink (osAbspath base (pathJoin cwd a))))) ∧
    (∀ (cwd base ws a : String) (fs : FS),
        resolveNode fs (osAbspath base (pathJoin cwd a)) = some FSNode.dir →
        stageArtifact cwd base ws false fs a =
          Except.error PyErr.isADirectoryError) := by
  refine ⟨?_, ?_, ?_⟩
  · intro cwd base ws a fs c m hres hdst
    have hex : fsExists fs (osAbspath base (pathJoin cwd a)) = true := by
      unfold fsExists
      rw [hres]
      rfl
    simp [stageArtifact, shutilCopy2, hex, hres, hdst]
  · intro cwd base ws a fs hex hdst
    simp [stageArtifact, osSymlink, hex, hdst]
  · intro cwd base ws a fs hres
    have hex : fsExists fs (osAbspath base (pathJoin cwd a)) = true := by
      unfold fsExists
      rw [hres]
      rfl
    simp [stageArtifact, shutilCopy2, hex, hres]

/-- Witness for amended C2: copying the file `/c/f` (content "data",
metadata 3) into `/w`, symlinking it, and the directory-copy failure, all
at concrete filesystems. -/
theorem c2_staging_amended_witness :
    stageArtifact "/c" "/c" "/w" false
        [("/c/f", FSNode.file "data" 3), ("/w", FSNode.dir)] "f" =
      Except.ok (fsInsert [("/c/f", FSNode.file "data" 3), ("/w", FSNode.dir)]
        (pathJoin "/w" (basename "f")) (FSNode.file "data" 3)) ∧
    stageArtifact "/c" "/c" "/w" true
        [("/c/f", FSNode.file "data" 3), ("/w", FSNode.dir)] "f" =
      Except.ok (fsInsert [("/c/f", FSNode.file "data" 3), ("/w", FSNode.dir)]
        (pathJoin "/w" (basename "f"))
        (FSNode.symlink (osAbspath "/c" (pathJoin "/c" "f")))) ∧
    stageArtifact "/c" "/c" "/w2" false
        [("/c/d", FSNode.dir), ("/w2", FSNode.dir)] "d" =
      Except.error PyErr.isADirectoryError :=
  ⟨c2_staging_amended.1 "/c" "/c" "/w" "f"
      [("/c/f", FSNode.file "data" 3), ("/w", FSNode.dir)] "data" 3
      (by decide) (by decide),
   c2_staging_amended.2.1 "/c" "/c" "/w" "f"
      [("/c/f", FSNode.file "data" 3), ("/w", FSNode.dir)]
      (by decide) (by decide),
   c2_staging_amended.2.2 "/c" "/c" "/w2" "d"
      [("/c/d", FSNode.dir), ("/w2", FSNode.dir)] (by decide)⟩

theorem isAbs_append (a b : String) (h : isAbs a = true) :
    isAbs (a ++ b) = true := by
  unfold isAbs at h ⊢
  change (((a ++ b).data).head? == some '/') = true
  change ((a.data).head? == some '/') = true at h
  rw [String.data_append]
  cases hd : a.data with
  | nil => rw [hd] at h; simp at h
  | cons c l =>
      rw [hd] at h
      simp only [List.cons_append, List.head?_cons]
      simpa using h

theorem pathJoin_work_ne (cwd : String) (h : isAbs cwd = true) :
    pathJoin cwd "work" ≠ cwd ∧ isAbs (pathJoin cwd "work") = true := by
  have hb : isAbs "work" = false := by decide
  unfold pathJoin
  rw [hb]
  by_cases hslash : ((cwd == "") || endsSlash cwd) = true
  · simp only [hslash, if_true, if_false, Bool.false_eq_true]
    constructor
    · intro hh
      have hlen := congrArg String.length hh
      rw [String.length_append] at hlen
      have h4 : "work".length = 4 := rfl
      omega
    · exact isAbs_append cwd "work" h
  · simp only [hslash, if_false, Bool.false_eq_true]
    constructor
    · intro hh
      have hlen := congrArg String.length hh
      rw [String.length_append, String.length_append] at hlen
      have h4 : "work".length = 4 := rfl
      have h1 : "/".length = 1 := rfl
      omega
    · exact isAbs_append (cwd ++ "/") "work" (isAbs_append cwd "/" h)

/-- Counterexample to C1 as stated: invoking the CLI without `--log-dir`
puts `None` under the `log_dir` key, and `Runner.initialize` then resolves
the log directory to `<cwd>/work`, not to the current working directory. -/
theorem c1_counterexample :
    resolveLogDir "/home/user"
        (mainConfig ⟨none, none, false, false, true, ["echo"]⟩) =
      "/home/user/work" ∧
    "/home/user/work" ≠ "/home/user" :=
  ⟨rfl, by decide⟩

/-- C1 amended: with the `log_dir` key absent from the config dict the
resolved log directory is the (absolute) current working directory; with
the key present but `None` -- what the CLI produces when `--log-dir` is not
passed -- it is `<cwd>/work`, which differs from the cwd; with a configured
string it is that value joined onto the cwd; and a successfully
constructed runner's log file path is
`<resolved log dir>/run_log_<timestamp>.txt`. -/
theorem c1_log_dir_resolution (cwd : String) (cfg : Config)
    (h : isAbs cwd = true) :
    (cfg.log_dir = none → resolveLogDir cwd cfg = cwd) ∧
    (cfg.log_dir = some none →
      resolveLogDir cwd cfg = pathJoin cwd "work" ∧
      resolveLogDir cwd cfg ≠ cwd) ∧
    (∀ s, cfg.log_dir = some (some s) →
      resolveLogDir cwd cfg = pathJoin cwd s) ∧
    (∀ (dirArg : Option String) (ts tmp : String) (fs : FS) (r : InitResult),
      initRunner cwd dirArg cfg ts tmp fs = Except.ok r →
      r.logFilename =
        pathJoin (resolveLogDir cwd cfg) ("run_log_" ++ ts ++ ".txt")) := by
  refine ⟨?_, ?_, ?_, ?_⟩
  · intro hc
    simp [resolveLogDir, hc, pathJoin, h]
  · intro hc
    have hw := pathJoin_work_ne cwd h
    have he : resolveLogDir cwd cfg = pathJoin cwd "work" := by
      simp [resolveLogDir, hc, osAbspath, hw.2]
    exact ⟨he, by rw [he]; exact hw.1⟩
  · intro s hc
    simp [resolveLogDir, hc]
  · intro dirArg ts tmp fs r hr
    rcases initRunner_inv hr with ⟨_, _, _, _, _, _, _, _, _, hlf, _⟩
    exact hlf

/-- Witness for amended C1: the CLI-default (`None`) case at a concrete
absolute working directory. -/
theorem c1_log_dir_resolution_witness :
    resolveLogDir "/home/u" { log_dir := some none } = pathJoin "/home/u" "work" ∧
    resolveLogDir "/home/u" { log_dir := some none } ≠ "/home/u" :=
  (c1_log_dir_resolution "/home/u" { log_dir := some none } (by decide)).2.1 rfl

theorem initWorkspace_ok_isDir {cwd ts tmp logDir : String}
    {dirArg : Option String} {cfg : Config} {fs fs2 : FS} {w ca : String}
    (h : initWorkspace cwd dirArg cfg ts tmp logDir fs = Except.ok (fs2, w, ca)) :
    fsIsDir fs2 w = true := by
  have hs := initWorkspace_spec h
  by_cases ht : truthy dirArg = true
  · exact checkAndCreateDir_ok_isDir (hs.1 ht).2.2
  · by_cases hp : cfg.persist = true
    · exact checkAndCreateDir_ok_isDir
        ((hs.2.1 (Bool.not_eq_true _ ▸ ht) hp)).2.2
    · rcases hs.2.2 (Bool.not_eq_true _ ▸ ht) (Bool.not_eq_true _ ▸ hp) with
        ⟨hw, _, hfs⟩
      rw [hw, hfs]
      exact (fsIsDir_resolve _ _).mpr
        (Or.inl (by rw [fsLookup_fsInsert, if_pos rfl]))

/-- Counterexample to C6 as stated: `/a/b` is absent, but because its
ancestor `/a` exists as a regular file, `os.makedirs` fails with an
unhandled `NotADirectoryError` instead of creating the path (and the
failure is not a `DirectoryConflict`). -/
theorem c6_counterexample :
    fsExists [("/a", FSNode.file "x" 0)] "/a/b" = false ∧
    checkAndCreateDir [("/a", FSNode.file "x" 0)] "/a/b" =
      Except.error PyErr.notADirectoryError :=
  ⟨by decide, rfl⟩

/-- C6 amended: `check_and_create_dir` raises `DirectoryConflict` exactly
when the path exists and is not a directory; when the path is absent it is
created (with parents) provided every existing ancestor is a directory --
otherwise an unhandled `NotADirectoryError` (not `DirectoryConflict`)
propagates; and after a successful construction the workspace directory
exists and is a directory. -/
theorem c6_directory_creation_amended :
    (∀ (fs : FS) (d : String),
        checkAndCreateDir fs d = Except.error PyErr.directoryConflict ↔
          fsExists fs d = true ∧ fsIsDir fs d = false) ∧
    (∀ (fs : FS) (d : String),
        fsExists fs d = false → ancestorsOk fs d = true →
        ∃ fs2, checkAndCreateDir fs d = Except.ok fs2 ∧
          fsExists fs2 d = true ∧ fsIsDir fs2 d = true) ∧
    (∀ (fs : FS) (d : String),
        fsExists fs d = false → ancestorsOk fs d = false →
        checkAndCreateDir fs d = Except.error PyErr.notADirectoryError) ∧
    (∀ (cwd : String) (dirArg : Option String) (cfg : Config)
        (ts tmp : String) (fs : FS) (r : InitResult),
        initRunner cwd dirArg cfg ts tmp fs = Except.ok r →
        fsExists r.fs r.dir = true ∧ fsIsDir r.fs r.dir = true) := by
  refine ⟨?_, ?_, ?_, ?_⟩
  · intro fs d
    constructor
    · intro h
      unfold checkAndCreateDir at h
      by_cases hex : fsExists fs d = true
      · rw [if_pos hex] at h
        by_cases hd : fsIsDir fs d = true
        · rw [if_pos hd] at h
          cases h
        · exact ⟨hex, Bool.not_eq_true _ ▸ hd⟩
      · rw [if_neg hex] at h
        unfold osMakedirs at h
        rw [if_neg hex] at h
        by_cases ha : ancestorsOk fs d = true
        · rw [if_pos ha] at h
          cases h
        · rw [if_neg ha] at h
          exact absurd (Except.error.inj h) (by decide)
    · rintro ⟨hex, hd⟩
      unfold checkAndCreateDir
      rw [if_pos hex, if_neg (by simp [hd])]
  · intro fs d hex ha
    unfold checkAndCreateDir osMakedirs
    rw [if_neg (by simp [hex]), if_neg (by simp [hex]), if_pos ha]
    have hdir : fsIsDir (fsInsert (insertDirs fs (ancestorDirs d)) d FSNode.dir)
        d = true :=
      (fsIsDir_resolve _ _).mpr (Or.inl (by rw [fsLookup_fsInsert, if_pos rfl]))
    exact ⟨_, rfl, fsExists_of_fsIsDir hdir, hdir⟩
  · intro fs d hex ha
    unfold checkAndCreateDir osMakedirs
    rw [if_neg (by simp [hex]), if_neg (by simp [hex]), if_neg (by simp [ha])]
  · intro cwd dirArg cfg ts tmp fs r hr
    rcases initRunner_inv hr with ⟨fs1, fs2, w, ca, hc, hw, hs, hdir, _, _, _⟩
    have h2 := initWorkspace_ok_isDir hw
    have h3 := stageAll_preserves_isDir cfg.artifacts hs h2
    rw [hdir]
    exact ⟨fsExists_of_fsIsDir h3, h3⟩

/-- Witness for amended C6: a conflict on a file path, and creation of an
absent path with well-formed ancestors. -/
theorem c6_directory_creation_amended_witness :
    checkAndCreateDir [("/x", FSNode.file "" 0)] "/x" =
      Except.error PyErr.directoryConflict ∧
    ∃ fs2, checkAndCreateDir [] "/w" = Except.ok fs2 ∧
      fsExists fs2 "/w" = true ∧ fsIsDir fs2 "/w" = true :=
  ⟨(c6_directory_creation_amended.1 [("/x", FSNode.file "" 0)] "/x").mpr
      ⟨by decide, by decide⟩,
   c6_directory_creation_amended.2.1 [] "/w" (by decide) (by decide)⟩

/-- C7: when a truthy explicit workspace directory is supplied the
process's working directory is left unchanged; in the persist and
ephemeral-temp branches initialization changes it into the workspace
directory (and in the temp branch the workspace is the fresh `mkdtemp`
path). -/
theorem c7_working_directory (cwd : String) (dirArg : Option String)
    (cfg : Config) (ts tmp : String) (fs : FS) (r : InitResult)
    (h : initRunner cwd dirArg cfg ts tmp fs = Except.ok r) :
    (truthy dirArg = true → r.cwdAfter = cwd) ∧
    (truthy dirArg = false → cfg.persist = true → r.cwdAfter = r.dir) ∧
    (truthy dirArg = false → cfg.persist = false →
      r.cwdAfter = r.dir ∧ r.dir = tmp) := by
  rcases initRunner_inv h with ⟨fs1, fs2, w, ca, hc, hw, hs, hdir, hca, _, _⟩
  have hspec := initWorkspace_spec hw
  refine ⟨?_, ?_, ?_⟩
  · intro ht
    rw [hca, (hspec.1 ht).2.1]
  · intro ht hp
    rcases hspec.2.1 ht hp with ⟨hw1, hca1, _⟩
    rw [hca, hdir, hca1]
  · intro ht hp
    rcases hspec.2.2 ht hp with ⟨hw1, hca1, _⟩
    exact ⟨by rw [hca, hdir, hca1, hw1], by rw [hdir, hw1]⟩

/-- Witness for C7: an explicit workspace `/w` leaves the working
directory at `/c`. -/
theorem c7_working_directory_witness :
    (initRunner "/c" (some "/w") { log_dir := none } "1" "/t"
        [("/c", FSNode.dir)] =
      Except.ok (InitResult.mk [("/w", FSNode.dir), ("/c", FSNode.dir)] "/w"
        "/c/run_log_1.txt" "/c" ["Workspace initiated at /w"])) ∧
    InitResult.cwdAfter (InitResult.mk [("/w", FSNode.dir), ("/c", FSNode.dir)]
      "/w" "/c/run_log_1.txt" "/c" ["Workspace initiated at /w"]) = "/c" :=
  ⟨rfl,
   (c7_working_directory "/c" (some "/w") { log_dir := none } "1" "/t"
      [("/c", FSNode.dir)]
      (InitResult.mk [("/w", FSNode.dir), ("/c", FSNode.dir)] "/w"
        "/c/run_log_1.txt" "/c" ["Workspace initiated at /w"]) rfl).1 rfl⟩

theorem stageAll_missing {cwd base ws : String} {symlink : Bool} :
    ∀ (pre : List String) {fs fs2 : FS} (a : String) (post : List String),
      stageAll cwd base ws symlink fs pre = Except.ok fs2 →
      fsExists fs2 (osAbspath base (pathJoin cwd a)) = false →
      stageAll cwd base ws symlink fs (pre ++ a :: post) =
        Except.error PyErr.fileNotFound := by
  intro pre
  induction pre with
  | nil =>
      intro fs fs2 a post h hex
      unfold stageAll at h
      cases h
      simp only [List.nil_append]
      unfold stageAll stageArtifact
      rw [if_neg (by simp [hex])]
      rfl
  | cons b rest ih =>
      intro fs fs2 a post h hex
      unfold stageAll at h
      simp only [List.cons_append]
      unfold stageAll
      cases h1 : stageArtifact cwd base ws symlink fs b with
      | error e => rw [h1] at h; cases h
      | ok fsb =>
          rw [h1] at h
          simp only [Except.bind] at h
          simp only [Except.bind]
          exact ih a post h hex

/-- C5: when the artifacts list contains an entry whose resolved source
path (relative to the original working directory) does not exist at its
staging turn, `Runner.initialize` -- and hence the constructor -- raises
`ArtifactNotFound` (Python's `FileNotFoundError`), and the composed
construct-then-run pipeline fails with that same error before any command
outcome is produced. -/
theorem c5_missing_artifact (cwd : String) (dirArg : Option String)
    (cfg : Config) (ts tmp command : String) (fs fs1 fs2 fs3 : FS)
    (w ca : String) (pre post : List String) (a : String) (cmd : CmdSpec)
    (hart : cfg.artifacts = pre ++ a :: post)
    (h1 : checkAndCreateDir fs (resolveLogDir cwd cfg) = Except.ok fs1)
    (h2 : initWorkspace cwd dirArg cfg ts tmp (resolveLogDir cwd cfg) fs1 =
      Except.ok (fs2, w, ca))
    (h3 : stageAll cwd ca w cfg.symlink_to_artifacts fs2 pre = Except.ok fs3)
    (h4 : fsExists fs3 (osAbspath ca (pathJoin cwd a)) = false) :
    initRunner cwd dirArg cfg ts tmp fs = Except.error PyErr.fileNotFound ∧
    runnerMain cwd dirArg cfg ts tmp command fs cmd =
      Except.error PyErr.fileNotFound := by
  have hstage := stageAll_missing pre a post h3 h4
  have hinit : initRunner cwd dirArg cfg ts tmp fs =
      Except.error PyErr.fileNotFound := by
    simp only [initRunner]
    rw [h1]
    simp only [Except.bind]
    rw [h2]
    simp only [Except.bind]
    rw [hart, hstage]
    rfl
  refine ⟨hinit, ?_⟩
  unfold runnerMain
  rw [hinit]
  rfl

/-- Witness for C5: the single artifact "missing" does not exist under
`/c`, so construction fails with the artifact error and no run outcome is
produced. -/
theorem c5_missing_artifact_witness :
    initRunner "/c" (some "/w")
        { log_dir := some (some "logs"), artifacts := ["missing"] } "1" "/t"
        [("/c", FSNode.dir)] = Except.error PyErr.fileNotFound ∧
    runnerMain "/c" (some "/w")
        { log_dir := some (some "logs"), artifacts := ["missing"] } "1" "/t"
        "x" [("/c", FSNode.dir)] ⟨true, 0, [], "", id⟩ =
      Except.error PyErr.fileNotFound :=
  c5_missing_artifact "/c" (some "/w")
    { log_dir := some (some "logs"), artifacts := ["missing"] } "1" "/t" "x"
    [("/c", FSNode.dir)]
    [("/c/logs", FSNode.dir), ("/c", FSNode.dir)]
    [("/w", FSNode.dir), ("/c/logs", FSNode.dir), ("/c", FSNode.dir)]
    [("/w", FSNode.dir), ("/c/logs", FSNode.dir), ("/c", FSNode.dir)]
    "/w" "/c" [] [] "missing" ⟨true, 0, [], "", id⟩
    rfl rfl rfl rfl (by decide)
